import Mathlib

/-!
Shallow embedding of `libs/net/traffic_generator.py`: iperf3-based traffic
generator handles (`Server`, `Client`, `PodClient`) and the module-level
helpers `_stop_process`, `_is_process_running`, `is_tcp_connection`.

Remote execution (`vm.console(...)` on a VM, `pod.execute(...)` on a pod) is
modelled by an oracle `Exec` mapping the position in the event trace and the
issued call to an output string or a Python exception.  Every method is a
function from the oracle and the trace so far to a result (`Except PyExc _`,
an exception modelling a Python raise) together with the extended trace; the
trace also records `LOGGER.warning` calls, so swallowed-and-logged failures
stay observable.

The polling primitives `TimeoutSampler(wait_timeout=60, sleep=5, ...)` and
`@retry(wait_timeout=30, sleep=2, exceptions_dict={ProcessLookupError: []})`
come from the external `timeout_sampler` library; they are modelled as
bounded loops with `wait_timeout / sleep` attempts, per their documented
contract (retry caught exceptions / falsy samples until the budget is
exhausted, then raise `TimeoutExpiredError` carrying the last failure,
which the library logs).
-/

/-- Python exceptions that can cross the traffic-generator boundary. -/
inductive PyExc where
  | commandExecFailed (msg : String)
  | timeoutExpired (msg : String)
  | processLookupError (msg : String)
  | otherError (msg : String)
  deriving DecidableEq, Repr

/-- Message carried by an exception (its `str(e)`). -/
def PyExc.msg : PyExc → String
  | .commandExecFailed m => m
  | .timeoutExpired m => m
  | .processLookupError m => m
  | .otherError m => m

/-- One observable event: a `vm.console` call, a `pod.execute` call, or a
`LOGGER.warning` call. -/
inductive Event where
  | console (commands : List String) (timeout : Nat)
  | podExec (command : List String) (container : Option String) (ignoreRc : Bool)
  | warn (msg : String)
  deriving DecidableEq, Repr

/-- The container argument an event was issued with (`none` for console calls,
warnings, and `pod.execute` calls without a `container=` argument). -/
def Event.containerArg : Event → Option String
  | .podExec _ c _ => c
  | _ => none

/-- Remote-execution oracle: given the current trace length and the call,
return the captured output or raise. -/
abbrev Exec := Nat → Event → Except PyExc String

def _DEFAULT_CMD_TIMEOUT_SEC : Nat := 10

def _IPERF_BIN : String := "iperf3"

/-- `TimeoutSampler(wait_timeout=60, ...)` used by `_is_process_running`. -/
def SAMPLER_WAIT_TIMEOUT : Nat := 60

/-- `TimeoutSampler(sleep=5, ...)` used by `_is_process_running`. -/
def SAMPLER_SLEEP : Nat := 5

/-- Number of liveness samples the 60s/5s sampler can take. -/
def samplerAttempts : Nat := SAMPLER_WAIT_TIMEOUT / SAMPLER_SLEEP

/-- `@retry(wait_timeout=30, ...)` on `PodClient._ensure_is_running`. -/
def RETRY_WAIT_TIMEOUT : Nat := 30

/-- `@retry(sleep=2, ...)` on `PodClient._ensure_is_running`. -/
def RETRY_SLEEP : Nat := 2

/-- Number of attempts the 30s/2s retry decorator can make. -/
def retryAttempts : Nat := RETRY_WAIT_TIMEOUT / RETRY_SLEEP

/-- Python truthiness of an `str | None` value (`if bind_interface`). -/
def pyTruthyStr : Option String → Bool
  | none => false
  | some s => !s.isEmpty

/-- `Server(vm, port)`: the VM is kept only as its name (used in log
messages); `_cmd` is derived from the port. -/
structure Server where
  vmName : String
  port : Nat
  deriving DecidableEq, Repr

/-- `self._cmd = f"{_IPERF_BIN} --server --port {self._port} --one-off"`. -/
def Server.cmd (srv : Server) : String :=
  _IPERF_BIN ++ " --server --port " ++ toString srv.port ++ " --one-off"

/-- `Client(vm, server_ip, server_port)`. -/
structure Client where
  vmName : String
  serverIp : String
  serverPort : Nat
  deriving DecidableEq, Repr

/-- `self._cmd = f"{_IPERF_BIN} --client {self._server_ip} --time 0 --port
{self._server_port} --connect-timeout 0"`. -/
def Client.cmd (c : Client) : String :=
  _IPERF_BIN ++ " --client " ++ c.serverIp ++ " --time 0 --port " ++
    toString c.serverPort ++ " --connect-timeout 0"

/-- `PodClient(pod, server_ip, server_port, bind_interface=None)`. -/
structure PodClient where
  podName : String
  serverIp : String
  serverPort : Nat
  bindInterface : Option String
  deriving DecidableEq, Repr

/-- `self._cmd = f"{_IPERF_BIN} --client ..."` followed by
`self._cmd += f" --bind {bind_interface}" if bind_interface else ""`. -/
def PodClient.cmd (p : PodClient) : String :=
  (_IPERF_BIN ++ " --client " ++ p.serverIp ++ " --time 0 --port " ++
    toString p.serverPort ++ " --connect-timeout 0") ++
  (if pyTruthyStr p.bindInterface then " --bind " ++ p.bindInterface.getD "" else "")

/-- The console call `vm.console(commands=[f"{cmd} &"], timeout=10)` issued by
`Server.__enter__` / `Client.__enter__`. -/
def vmLaunchEvent (cmd : String) : Event :=
  .console [cmd ++ " &"] _DEFAULT_CMD_TIMEOUT_SEC

/-- The console call `vm.console(commands=[f"pgrep -fx '{cmd}'"], timeout=10)`
sampled by `_is_process_running`. -/
def vmProbeEvent (cmd : String) : Event :=
  .console ["pgrep -fx \x27" ++ cmd ++ "\x27"] _DEFAULT_CMD_TIMEOUT_SEC

/-- The console call `vm.console(commands=[f"pkill -f '{cmd}'"], timeout=10)`
issued by `_stop_process`. -/
def vmKillEvent (cmd : String) : Event :=
  .console ["pkill -f \x27" ++ cmd ++ "\x27"] _DEFAULT_CMD_TIMEOUT_SEC

/-- The pod call `pod.execute(command=["sh", "-c", f"nohup {cmd}
>/tmp/iperf3.log 2>&1 &"], container="iperf3")` issued by
`PodClient.__enter__`. -/
def podLaunchEvent (cmd : String) : Event :=
  .podExec ["sh", "-c", "nohup " ++ cmd ++ " >/tmp/" ++ _IPERF_BIN ++ ".log 2>&1 &"]
    (some _IPERF_BIN) false

/-- The pod call `pod.execute(command=["pgrep", "-f", cmd], ignore_rc=True)`
issued by `PodClient.is_running` (no `container=` argument). -/
def podProbeEvent (cmd : String) : Event :=
  .podExec ["pgrep", "-f", cmd] none true

/-- The pod call `pod.execute(command=["pkill", "-f", cmd])` issued by
`PodClient.__exit__` (no `container=` argument). -/
def podKillEvent (cmd : String) : Event :=
  .podExec ["pkill", "-f", cmd] none false

/-- `Server.__enter__`: submit `f"{self._cmd} &"` on the console and return
`self`; any console failure propagates. -/
def Server.enter (e : Exec) (srv : Server) : Except PyExc Unit × List Event :=
  match e 0 (vmLaunchEvent srv.cmd) with
  | .ok _ => (.ok (), [vmLaunchEvent srv.cmd])
  | .error ex => (.error ex, [vmLaunchEvent srv.cmd])

/-- `Client.__enter__`: same shape as `Server.__enter__`. -/
def Client.enter (e : Exec) (c : Client) : Except PyExc Unit × List Event :=
  match e 0 (vmLaunchEvent c.cmd) with
  | .ok _ => (.ok (), [vmLaunchEvent c.cmd])
  | .error ex => (.error ex, [vmLaunchEvent c.cmd])

/-- `_stop_process(vm, cmd)`: one `pkill -f '{cmd}'`; `CommandExecFailed` is
caught and logged as a warning, every other exception propagates. -/
def _stop_process (e : Exec) (cmd : String) (s : List Event) :
    Except PyExc Unit × List Event :=
  match e s.length (vmKillEvent cmd) with
  | .ok _ => (.ok (), s ++ [vmKillEvent cmd])
  | .error (.commandExecFailed m) =>
      (.ok (), s ++ [vmKillEvent cmd, .warn m])
  | .error ex => (.error ex, s ++ [vmKillEvent cmd])

/-- `Server.__exit__`: `_stop_process(vm=self._vm, cmd=self._cmd)`. -/
def Server.exit (e : Exec) (srv : Server) (s : List Event) :
    Except PyExc Unit × List Event :=
  _stop_process e srv.cmd s

/-- `Client.__exit__`: `_stop_process(vm=self._vm, cmd=self._cmd)`. -/
def Client.exit (e : Exec) (c : Client) (s : List Event) :
    Except PyExc Unit × List Event :=
  _stop_process e c.cmd s

/-- The sampling loop inside `_is_process_running`: each attempt runs
`pgrep -fx '{cmd}'`; a truthy (non-empty) sample returns `True`, a falsy
sample or an exception (all exceptions are retried by `TimeoutSampler`, the
last one kept as `last_exp`) leads to the next attempt; exhausting the budget
models `TimeoutExpiredError`.  Result: decision, trace, `last_exp`. -/
def samplerLoop (e : Exec) (cmd : String) :
    Nat → List Event → Option PyExc → Bool × List Event × Option PyExc
  | 0, s, lastExp => (false, s, lastExp)
  | fuel + 1, s, lastExp =>
    match e s.length (vmProbeEvent cmd) with
    | .ok out =>
        if out.isEmpty then
          samplerLoop e cmd fuel (s ++ [vmProbeEvent cmd]) lastExp
        else
          (true, s ++ [vmProbeEvent cmd], lastExp)
    | .error ex => samplerLoop e cmd fuel (s ++ [vmProbeEvent cmd]) (some ex)

/-- The warning `_is_process_running` logs on `TimeoutExpiredError`:
`f"Process is not running on VM {vm.name}. Error: {str(e.last_exp)}"`. -/
def notRunningWarnMsg (vmName : String) (lastExp : Option PyExc) : String :=
  "Process is not running on VM " ++ vmName ++ ". Error: " ++
    (match lastExp with
     | some ex => ex.msg
     | none => "None")

/-- `_is_process_running(vm, cmd)`: sample `pgrep -fx '{cmd}'` under a 60s/5s
`TimeoutSampler`; return `True` on the first truthy sample; on
`TimeoutExpiredError` log a warning and return `False`. -/
def _is_process_running (e : Exec) (vmName cmd : String) (s : List Event) :
    Bool × List Event :=
  match samplerLoop e cmd samplerAttempts s none with
  | (true, s1, _) => (true, s1)
  | (false, s1, lastExp) => (false, s1 ++ [.warn (notRunningWarnMsg vmName lastExp)])

/-- `Server.is_running`: `_is_process_running(vm=self._vm, cmd=self._cmd)`. -/
def Server.is_running (e : Exec) (srv : Server) (s : List Event) :
    Bool × List Event :=
  _is_process_running e srv.vmName srv.cmd s

/-- `Client.is_running`: `_is_process_running(vm=self._vm, cmd=self._cmd)`. -/
def Client.is_running (e : Exec) (c : Client) (s : List Event) :
    Bool × List Event :=
  _is_process_running e c.vmName c.cmd s

/-- Python `str.strip()`: drop leading and trailing whitespace. -/
def pyStrip (s : String) : String :=
  ⟨((s.data.dropWhile Char.isWhitespace).reverse.dropWhile Char.isWhitespace).reverse⟩

/-- `PodClient.is_running`: one `pod.execute(command=["pgrep", "-f",
self._cmd], ignore_rc=True)`; returns `bool(out.strip())`; an executor
exception propagates. -/
def PodClient.is_running (e : Exec) (p : PodClient) (s : List Event) :
    Except PyExc Bool × List Event :=
  match e s.length (podProbeEvent p.cmd) with
  | .ok out => (.ok (!(pyStrip out).isEmpty), s ++ [podProbeEvent p.cmd])
  | .error ex => (.error ex, s ++ [podProbeEvent p.cmd])

/-- The `ProcessLookupError` message raised by `_ensure_is_running`:
`f"{_IPERF_BIN} client process did not start in the pod {self._pod.name}"`. -/
def podNotStartedMsg (podName : String) : String :=
  _IPERF_BIN ++ " client process did not start in the pod " ++ podName

/-- `PodClient._ensure_is_running` under its `@retry(wait_timeout=30, sleep=2,
exceptions_dict={ProcessLookupError: []})` decorator: each attempt calls
`is_running`; `True` succeeds, `False` raises `ProcessLookupError` which the
decorator retries, any other exception propagates; on budget exhaustion the
decorator logs and raises `TimeoutExpiredError` carrying the last failure. -/
def ensureLoop (e : Exec) (podName : String) (p : PodClient) :
    Nat → List Event → Except PyExc Bool × List Event
  | 0, s =>
      (.error (.timeoutExpired (podNotStartedMsg podName)),
       s ++ [.warn (podNotStartedMsg podName)])
  | fuel + 1, s =>
    match PodClient.is_running e p s with
    | (.ok true, s1) => (.ok true, s1)
    | (.ok false, s1) => ensureLoop e podName p fuel s1
    | (.error (.processLookupError _), s1) => ensureLoop e podName p fuel s1
    | (.error ex, s1) => (.error ex, s1)

/-- `PodClient._ensure_is_running` with its retry budget applied. -/
def PodClient._ensure_is_running (e : Exec) (p : PodClient) (s : List Event) :
    Except PyExc Bool × List Event :=
  ensureLoop e p.podName p retryAttempts s

/-- `PodClient.__enter__`: launch via `nohup ... &` in the `iperf3` container,
then `self._ensure_is_running()`; a launch failure propagates unretried. -/
def PodClient.enter (e : Exec) (p : PodClient) : Except PyExc Unit × List Event :=
  match e 0 (podLaunchEvent p.cmd) with
  | .error ex => (.error ex, [podLaunchEvent p.cmd])
  | .ok _ =>
    match PodClient._ensure_is_running e p [podLaunchEvent p.cmd] with
    | (.ok _, s1) => (.ok (), s1)
    | (.error ex, s1) => (.error ex, s1)

/-- `PodClient.__exit__`: `pod.execute(command=["pkill", "-f", self._cmd])`
with no exception handling. -/
def PodClient.exit (e : Exec) (p : PodClient) (s : List Event) :
    Except PyExc Unit × List Event :=
  match e s.length (podKillEvent p.cmd) with
  | .ok _ => (.ok (), s ++ [podKillEvent p.cmd])
  | .error ex => (.error ex, s ++ [podKillEvent p.cmd])

/-- The `client: Client | PodClient` parameter of `is_tcp_connection`. -/
inductive ClientLike where
  | vmClient (c : Client)
  | podClient (p : PodClient)
  deriving DecidableEq, Repr

/-- `client.is_running()` dispatched over `Client | PodClient` (the VM variant
never raises; the pod variant may). -/
def ClientLike.is_running (e : Exec) : ClientLike → List Event → Except PyExc Bool × List Event
  | .vmClient c, s =>
      match Client.is_running e c s with
      | (b, s1) => (.ok b, s1)
  | .podClient p, s => PodClient.is_running e p s

/-- `is_tcp_connection(server, client) = server.is_running() and
client.is_running()` with Python short-circuit evaluation. -/
def is_tcp_connection (e : Exec) (srv : Server) (cl : ClientLike) (s : List Event) :
    Except PyExc Bool × List Event :=
  match Server.is_running e srv s with
  | (true, s1) => ClientLike.is_running e cl s1
  | (false, s1) => (.ok false, s1)

/-- An event is a liveness probe iff it runs `pgrep` (a console command
starting with `pgrep`, or a `pod.execute` whose argv starts with `pgrep`). -/
def isLivenessProbe : Event → Bool
  | .console cmds _ => cmds.any (fun c => c.data.take 5 = "pgrep".data)
  | .podExec cmd _ _ => cmd.headI = "pgrep"
  | .warn _ => false

/-! Concrete executors and handles used by witnesses and counterexamples. -/

/-- Executor whose every call succeeds with truthy output. -/
def execOk : Exec := fun _ _ => .ok "4242"

/-- Executor whose every call succeeds with empty output. -/
def execEmpty : Exec := fun _ _ => .ok ""

/-- Executor whose every call fails with `CommandExecFailed`. -/
def execFail : Exec := fun _ _ => .error (.commandExecFailed "exec failed")

/-- Executor whose first call returns empty output and later calls truthy
output. -/
def execSecondProbe : Exec := fun n _ => if n = 0 then .ok "" else .ok "4242"

def srv0 : Server := ⟨"vm-a", 5201⟩

def cl0 : Client := ⟨"vm-b", "10.0.0.5", 5201⟩

def pc0 : PodClient := ⟨"pod-a", "10.0.0.5", 5201, none⟩

/-! Helper lemmas about the polling loops. -/

/-- A sample is truthy iff it returned non-empty output (`if sample:`). -/
def truthySample : Except PyExc String → Bool
  | .ok out => !out.isEmpty
  | .error _ => false

/-- Every event the sampling loop appends is the `pgrep -fx` probe for the
handle's command string. -/
lemma samplerLoop_trace (e : Exec) (cmd : String) :
    ∀ fuel s lastExp, ∃ tail, (samplerLoop e cmd fuel s lastExp).2.1 = s ++ tail ∧
      ∀ ev ∈ tail, ev = vmProbeEvent cmd := by
  intro fuel
  induction fuel with
  | zero => exact fun s l => ⟨[], by simp [samplerLoop]⟩
  | succ n ih =>
    intro s l
    simp only [samplerLoop]
    cases h : e s.length (vmProbeEvent cmd) with
    | ok out =>
      cases ho : out.isEmpty with
      | true =>
        obtain ⟨tail, ht, hall⟩ := ih (s ++ [vmProbeEvent cmd]) l
        refine ⟨vmProbeEvent cmd :: tail, ?_, ?_⟩
        · simpa [ho, List.append_assoc] using ht
        · intro ev hev
          rcases List.mem_cons.mp hev with h1 | h1
          · exact h1
          · exact hall ev h1
      | false =>
        exact ⟨[vmProbeEvent cmd], by simp [ho], by simp⟩
    | error ex =>
      obtain ⟨tail, ht, hall⟩ := ih (s ++ [vmProbeEvent cmd]) (some ex)
      refine ⟨vmProbeEvent cmd :: tail, ?_, ?_⟩
      · simpa [List.append_assoc] using ht
      · intro ev hev
        rcases List.mem_cons.mp hev with h1 | h1
        · exact h1
        · exact hall ev h1

/-- If no sample is ever truthy, the sampling loop exhausts its whole budget
and reports `false`. -/
lemma samplerLoop_all_nontruthy (e : Exec) (cmd : String)
    (h : ∀ n, truthySample (e n (vmProbeEvent cmd)) = false) :
    ∀ fuel s lastExp, ∃ l,
      samplerLoop e cmd fuel s lastExp =
        (false, s ++ List.replicate fuel (vmProbeEvent cmd), l) := by
  intro fuel
  induction fuel with
  | zero => exact fun s l => ⟨l, by simp [samplerLoop]⟩
  | succ n ih =>
    intro s l
    simp only [samplerLoop]
    cases hp : e s.length (vmProbeEvent cmd) with
    | ok out =>
      have hout : out.isEmpty = true := by
        have := h s.length
        rw [hp] at this
        simpa [truthySample] using this
      obtain ⟨l1, hl1⟩ := ih (s ++ [vmProbeEvent cmd]) l
      exact ⟨l1, by simp [hout, hl1, List.replicate_succ, List.append_assoc]⟩
    | error ex =>
      obtain ⟨l1, hl1⟩ := ih (s ++ [vmProbeEvent cmd]) (some ex)
      exact ⟨l1, by simp [hl1, List.replicate_succ, List.append_assoc]⟩

/-- The retry loop only ever appends events to the trace it is given. -/
lemma ensureLoop_trace (e : Exec) (pn : String) (p : PodClient) :
    ∀ fuel s, ∃ tail, (ensureLoop e pn p fuel s).2 = s ++ tail := by
  intro fuel
  induction fuel with
  | zero => exact fun s => ⟨[.warn (podNotStartedMsg pn)], by simp [ensureLoop]⟩
  | succ n ih =>
    intro s
    simp only [ensureLoop, PodClient.is_running]
    cases hp : e s.length (podProbeEvent p.cmd) with
    | ok out =>
      cases ho : (pyStrip out).isEmpty with
      | true =>
        obtain ⟨tail, ht⟩ := ih (s ++ [podProbeEvent p.cmd])
        exact ⟨podProbeEvent p.cmd :: tail, by simp [ho, ht, List.append_assoc]⟩
      | false => exact ⟨[podProbeEvent p.cmd], by simp [ho]⟩
    | error ex =>
      cases ex with
      | processLookupError m =>
        obtain ⟨tail, ht⟩ := ih (s ++ [podProbeEvent p.cmd])
        exact ⟨podProbeEvent p.cmd :: tail, by simp [ht, List.append_assoc]⟩
      | commandExecFailed m => exact ⟨[podProbeEvent p.cmd], by simp⟩
      | timeoutExpired m => exact ⟨[podProbeEvent p.cmd], by simp⟩
      | otherError m => exact ⟨[podProbeEvent p.cmd], by simp⟩

/-- If the retry loop returns without raising, some probe observed the process
running (the `pgrep` call returned output with non-empty strip). -/
lemma ensureLoop_ok_probe (e : Exec) (pn : String) (p : PodClient) :
    ∀ fuel s b s1, ensureLoop e pn p fuel s = (.ok b, s1) →
      ∃ n out, e n (podProbeEvent p.cmd) = .ok out ∧ (pyStrip out).isEmpty = false := by
  intro fuel
  induction fuel with
  | zero =>
    intro s b s1 h
    simp [ensureLoop] at h
  | succ n ih =>
    intro s b s1 h
    simp only [ensureLoop, PodClient.is_running] at h
    revert h
    cases hp : e s.length (podProbeEvent p.cmd) with
    | ok out =>
      cases ho : (pyStrip out).isEmpty with
      | true =>
        intro h
        simp only [ho] at h
        exact ih _ _ _ h
      | false =>
        intro h
        exact ⟨s.length, out, hp, ho⟩
    | error ex =>
      cases ex with
      | processLookupError m => exact fun h => ih _ _ _ (by simpa using h)
      | commandExecFailed m => intro h; simp at h
      | timeoutExpired m => intro h; simp at h
      | otherError m => intro h; simp at h


lemma ensureLoop_all_empty (e : Exec) (pn : String) (p : PodClient)
    (h : ∀ n, ∃ out, e n (podProbeEvent p.cmd) = .ok out ∧ (pyStrip out).isEmpty = true) :
    ∀ fuel s, ensureLoop e pn p fuel s =
      (.error (.timeoutExpired (podNotStartedMsg pn)),
       s ++ (List.replicate fuel (podProbeEvent p.cmd) ++ [Event.warn (podNotStartedMsg pn)])) := by
  intro fuel
  induction fuel with
  | zero => intro s; simp [ensureLoop]
  | succ n ih =>
    intro s
    obtain ⟨out, hp, ho⟩ := h s.length
    simp only [ensureLoop, PodClient.is_running, hp, ho, Bool.not_true]
    rw [ih (s ++ [podProbeEvent p.cmd])]
    simp [List.replicate_succ, List.append_assoc]

lemma vmProbe_ne_vmLaunch (cmd : String) : vmProbeEvent cmd ≠ vmLaunchEvent cmd := by
  intro h
  simp only [vmProbeEvent, vmLaunchEvent] at h
  injection h with h1 h2
  injection h1 with h3 h4
  have hl := congrArg String.length h3
  rw [String.length_append, String.length_append, String.length_append] at hl
  rw [show ("pgrep -fx \x27" : String).length = 11 from rfl,
      show ("\x27" : String).length = 1 from rfl,
      show (" &" : String).length = 2 from rfl] at hl
  omega

/-- C1 (counterexample): `Server.__enter__` returns normally after issuing
only the launch call — no liveness probe was issued at all, so no
confirmation step observed the process running before `start()` returned. -/
theorem c1_counterexample :
    (Server.enter execOk srv0).fst = .ok () ∧
    (Server.enter execOk srv0).snd.countP (fun ev => isLivenessProbe ev) = 0 := by
  constructor <;> rfl

/-- C1 (amended): only `PodClient.start()` performs a confirmation step.
`Server.__enter__` and `Client.__enter__` issue exactly the single launch
call and never a liveness probe, while a normal return of
`PodClient.__enter__` guarantees some `pgrep` probe observed the process
running. -/
theorem c1_start_confirmation (srv : Server) (cl : Client) (p : PodClient) (e : Exec) :
    ((Server.enter e srv).snd = [vmLaunchEvent srv.cmd] ∧
      vmProbeEvent srv.cmd ∉ (Server.enter e srv).snd) ∧
    ((Client.enter e cl).snd = [vmLaunchEvent cl.cmd] ∧
      vmProbeEvent cl.cmd ∉ (Client.enter e cl).snd) ∧
    ((PodClient.enter e p).fst = .ok () →
      ∃ n out, e n (podProbeEvent p.cmd) = .ok out ∧ (pyStrip out).isEmpty = false) := by
  refine ⟨⟨?_, ?_⟩, ⟨?_, ?_⟩, ?_⟩
  · unfold Server.enter; cases e 0 (vmLaunchEvent srv.cmd) <;> rfl
  · unfold Server.enter
    cases e 0 (vmLaunchEvent srv.cmd) <;> simp [vmProbe_ne_vmLaunch]
  · unfold Client.enter; cases e 0 (vmLaunchEvent cl.cmd) <;> rfl
  · unfold Client.enter
    cases e 0 (vmLaunchEvent cl.cmd) <;> simp [vmProbe_ne_vmLaunch]
  · intro h
    simp only [PodClient.enter] at h
    revert h
    cases hl : e 0 (podLaunchEvent p.cmd) with
    | error ex => intro h; simp at h
    | ok o =>
      intro h
      rcases he : PodClient._ensure_is_running e p [podLaunchEvent p.cmd] with ⟨r, s1⟩
      rw [he] at h
      cases r with
      | ok b =>
        exact ensureLoop_ok_probe e p.podName p retryAttempts [podLaunchEvent p.cmd] b s1
          (by simpa [PodClient._ensure_is_running] using he)
      | error ex => simp at h

/-- Witness for C1 (amended): with an always-truthy executor,
`PodClient.__enter__` returns normally, so some probe observed it running. -/
theorem c1_start_confirmation_witness :
    ∃ n out, execOk n (podProbeEvent pc0.cmd) = .ok out ∧ (pyStrip out).isEmpty = false :=
  (c1_start_confirmation srv0 cl0 pc0 execOk).2.2 (by rfl)

/-- C2 (counterexample): `PodClient.__exit__` has no exception handling — a
failing `pkill` propagates its `CommandExecFailed` to the caller instead of
being swallowed. -/
theorem c2_counterexample :
    (PodClient.exit execFail pc0 []).fst = .error (.commandExecFailed "exec failed") := by
  rfl

/-- C2 (amended): `Server.stop()` and `Client.stop()` catch a
`CommandExecFailed` raised by the termination command, log it as a warning
and swallow it; `PodClient.stop()` propagates any executor failure to the
caller. -/
theorem c2_stop_error_handling (srv : Server) (cl : Client) (p : PodClient)
    (e : Exec) (s : List Event) (m : String) (ex : PyExc) :
    (e s.length (vmKillEvent srv.cmd) = .error (.commandExecFailed m) →
      Server.exit e srv s = (.ok (), s ++ [vmKillEvent srv.cmd, .warn m])) ∧
    (e s.length (vmKillEvent cl.cmd) = .error (.commandExecFailed m) →
      Client.exit e cl s = (.ok (), s ++ [vmKillEvent cl.cmd, .warn m])) ∧
    (e s.length (podKillEvent p.cmd) = .error ex →
      PodClient.exit e p s = (.error ex, s ++ [podKillEvent p.cmd])) := by
  refine ⟨fun h => ?_, fun h => ?_, fun h => ?_⟩
  · simp [Server.exit, _stop_process, h]
  · simp [Client.exit, _stop_process, h]
  · simp [PodClient.exit, h]

/-- Witness for C2 (amended) at an executor whose `pkill` always fails. -/
theorem c2_stop_error_handling_witness :
    Server.exit execFail srv0 [] =
      (.ok (), [vmKillEvent srv0.cmd, .warn "exec failed"]) ∧
    Client.exit execFail cl0 [] =
      (.ok (), [vmKillEvent cl0.cmd, .warn "exec failed"]) ∧
    PodClient.exit execFail pc0 [] =
      (.error (.commandExecFailed "exec failed"), [podKillEvent pc0.cmd]) :=
  ⟨(c2_stop_error_handling srv0 cl0 pc0 execFail [] "exec failed"
      (.commandExecFailed "exec failed")).1 rfl,
   (c2_stop_error_handling srv0 cl0 pc0 execFail [] "exec failed"
      (.commandExecFailed "exec failed")).2.1 rfl,
   (c2_stop_error_handling srv0 cl0 pc0 execFail [] "exec failed"
      (.commandExecFailed "exec failed")).2.2 rfl⟩

/-- C3 (counterexample): with a probe that answers empty output once and then
truthy output, `_is_process_running` reports true only after issuing TWO
liveness-check commands — it probes repeatedly instead of exactly once. -/
theorem c3_counterexample :
    (_is_process_running execSecondProbe "vm-a" srv0.cmd []).fst = true ∧
    (_is_process_running execSecondProbe "vm-a" srv0.cmd []).snd.countP
      (fun ev => isLivenessProbe ev) = 2 := by
  constructor <;> rfl

/-- C3 (amended): `PodClient.is_running` issues exactly one `pgrep -f`
(substring, not exact-match) command and returns whether the stripped output
is non-empty; `Server.is_running`/`Client.is_running` poll `pgrep -fx` under
a 60s/5s sampler — returning true at the first truthy sample (a single probe
if the first sample is truthy) and false, after exhausting all
`samplerAttempts` probes and logging a warning, when no sample is ever
truthy (probe failures are retried, not surfaced). -/
theorem c3_is_running_behavior (srv : Server) (p : PodClient)
    (e1 e2 e3 : Exec) (s : List Event) (out1 out2 : String) :
    (e1 s.length (podProbeEvent p.cmd) = .ok out1 →
      PodClient.is_running e1 p s =
        (.ok (!(pyStrip out1).isEmpty), s ++ [podProbeEvent p.cmd])) ∧
    (e2 s.length (vmProbeEvent srv.cmd) = .ok out2 → out2.isEmpty = false →
      Server.is_running e2 srv s = (true, s ++ [vmProbeEvent srv.cmd])) ∧
    ((∀ n, truthySample (e3 n (vmProbeEvent srv.cmd)) = false) →
      ∃ m, Server.is_running e3 srv s =
        (false, s ++ List.replicate samplerAttempts (vmProbeEvent srv.cmd) ++
          [Event.warn m])) := by
  refine ⟨fun h => ?_, fun h ho => ?_, fun h => ?_⟩
  · simp [PodClient.is_running, h]
  · unfold Server.is_running _is_process_running
    rw [show samplerAttempts = 11 + 1 from rfl]
    simp [samplerLoop, h, ho]
  · obtain ⟨l, hl⟩ := samplerLoop_all_nontruthy e3 srv.cmd h samplerAttempts s none
    refine ⟨notRunningWarnMsg srv.vmName l, ?_⟩
    unfold Server.is_running _is_process_running
    rw [hl]

/-- Witness for C3 (amended): a truthy executor for the one-probe parts, an
always-empty executor for the exhaustion part. -/
theorem c3_is_running_behavior_witness :
    PodClient.is_running execOk pc0 [] =
      (.ok (!(pyStrip "4242").isEmpty), [] ++ [podProbeEvent pc0.cmd]) ∧
    Server.is_running execOk srv0 [] = (true, [] ++ [vmProbeEvent srv0.cmd]) ∧
    ∃ m, Server.is_running execEmpty srv0 [] =
      (false, [] ++ List.replicate samplerAttempts (vmProbeEvent srv0.cmd) ++
        [Event.warn m]) :=
  ⟨(c3_is_running_behavior srv0 pc0 execOk execOk execEmpty [] "4242" "4242").1 rfl,
   (c3_is_running_behavior srv0 pc0 execOk execOk execEmpty [] "4242" "4242").2.1 rfl rfl,
   (c3_is_running_behavior srv0 pc0 execOk execOk execEmpty [] "4242" "4242").2.2
     (fun _ => rfl)⟩

/-- C4 (confirmed): `is_tcp_connection` returns true iff the server's
liveness check reports running and then the client's does; its trace is
exactly the server check followed (only when the server was running) by the
client check — no extra probing, retrying, or waiting of its own. -/
theorem c4_is_tcp_connection_snapshot (e : Exec) (srv : Server) (cl : ClientLike)
    (s : List Event) :
    ((is_tcp_connection e srv cl s).fst = .ok true ↔
      ((Server.is_running e srv s).fst = true ∧
       (ClientLike.is_running e cl (Server.is_running e srv s).snd).fst = .ok true)) ∧
    (is_tcp_connection e srv cl s).snd =
      (if (Server.is_running e srv s).fst then
        (ClientLike.is_running e cl (Server.is_running e srv s).snd).snd
       else (Server.is_running e srv s).snd) := by
  unfold is_tcp_connection
  rcases hs : Server.is_running e srv s with ⟨b, s1⟩
  cases b with
  | false => simp
  | true => simp

/-- Every event `_is_process_running` appends is the `pgrep -fx` probe for
the handle's command string, except a final logged warning. -/
lemma isRunning_trace (e : Exec) (vmName cmd : String) (s : List Event) :
    ∃ tail, (_is_process_running e vmName cmd s).snd = s ++ tail ∧
      ∀ ev ∈ tail, ev = vmProbeEvent cmd ∨ ∃ m, ev = Event.warn m := by
  obtain ⟨tail, ht, hall⟩ := samplerLoop_trace e cmd samplerAttempts s none
  unfold _is_process_running
  rcases hr : samplerLoop e cmd samplerAttempts s none with ⟨b, s1, l⟩
  rw [hr] at ht
  simp only at ht
  cases b with
  | true => exact ⟨tail, by simpa using ht, fun ev hev => .inl (hall ev hev)⟩
  | false =>
    refine ⟨tail ++ [Event.warn (notRunningWarnMsg vmName l)], ?_, ?_⟩
    · simp [ht, List.append_assoc]
    · intro ev hev
      rcases List.mem_append.mp hev with h1 | h1
      · exact .inl (hall ev h1)
      · simp only [List.mem_singleton] at h1
        exact .inr ⟨_, h1⟩

/-- `PodClient.__enter__`'s first issued call is always the containerized
`nohup` launch of the client command. -/
lemma podEnter_trace_head (e : Exec) (p : PodClient) :
    ∃ tail, (PodClient.enter e p).snd = podLaunchEvent p.cmd :: tail := by
  unfold PodClient.enter
  cases hl : e 0 (podLaunchEvent p.cmd) with
  | error ex => exact ⟨[], rfl⟩
  | ok o =>
    obtain ⟨tail, ht⟩ := ensureLoop_trace e p.podName p retryAttempts [podLaunchEvent p.cmd]
    have ht' : (PodClient._ensure_is_running e p [podLaunchEvent p.cmd]).snd =
        [podLaunchEvent p.cmd] ++ tail := ht
    rcases hr : PodClient._ensure_is_running e p [podLaunchEvent p.cmd] with ⟨r, s1⟩
    rw [hr] at ht'
    simp only at ht'
    cases r <;> exact ⟨tail, by simpa using ht'⟩

/-- C5 (confirmed): for each handle, the launch submits exactly the stored
command string (backgrounded), and the pattern quoted into every `pgrep`
liveness probe and every `pkill` termination call is byte-identical to that
same command string — a round-trip identity with nothing added or removed. -/
theorem c5_pattern_roundtrip (srv : Server) (cl : Client) (p : PodClient)
    (e : Exec) (s : List Event) :
    ((Server.enter e srv).snd =
        [Event.console [srv.cmd ++ " &"] _DEFAULT_CMD_TIMEOUT_SEC] ∧
      (∃ tail, (Server.is_running e srv s).snd = s ++ tail ∧
        ∀ ev ∈ tail,
          ev = Event.console ["pgrep -fx \x27" ++ srv.cmd ++ "\x27"]
                 _DEFAULT_CMD_TIMEOUT_SEC ∨
          ∃ m, ev = Event.warn m) ∧
      (∃ tail, (Server.exit e srv s).snd =
        s ++ Event.console ["pkill -f \x27" ++ srv.cmd ++ "\x27"]
               _DEFAULT_CMD_TIMEOUT_SEC :: tail)) ∧
    ((Client.enter e cl).snd =
        [Event.console [cl.cmd ++ " &"] _DEFAULT_CMD_TIMEOUT_SEC] ∧
      (∃ tail, (Client.is_running e cl s).snd = s ++ tail ∧
        ∀ ev ∈ tail,
          ev = Event.console ["pgrep -fx \x27" ++ cl.cmd ++ "\x27"]
                 _DEFAULT_CMD_TIMEOUT_SEC ∨
          ∃ m, ev = Event.warn m) ∧
      (∃ tail, (Client.exit e cl s).snd =
        s ++ Event.console ["pkill -f \x27" ++ cl.cmd ++ "\x27"]
               _DEFAULT_CMD_TIMEOUT_SEC :: tail)) ∧
    ((∃ tail, (PodClient.enter e p).snd =
        Event.podExec ["sh", "-c", "nohup " ++ p.cmd ++ " >/tmp/" ++ _IPERF_BIN ++
            ".log 2>&1 &"] (some _IPERF_BIN) false :: tail) ∧
      (PodClient.is_running e p s).snd =
        s ++ [Event.podExec ["pgrep", "-f", p.cmd] none true] ∧
      (PodClient.exit e p s).snd =
        s ++ [Event.podExec ["pkill", "-f", p.cmd] none false]) := by
  refine ⟨⟨?_, ?_, ?_⟩, ⟨?_, ?_, ?_⟩, ⟨?_, ?_, ?_⟩⟩
  · unfold Server.enter; cases e 0 (vmLaunchEvent srv.cmd) <;> rfl
  · exact isRunning_trace e srv.vmName srv.cmd s
  · unfold Server.exit _stop_process
    cases hk : e s.length (vmKillEvent srv.cmd) with
    | ok o => exact ⟨[], rfl⟩
    | error ex =>
      cases ex with
      | commandExecFailed m => exact ⟨[.warn m], rfl⟩
      | timeoutExpired m => exact ⟨[], rfl⟩
      | processLookupError m => exact ⟨[], rfl⟩
      | otherError m => exact ⟨[], rfl⟩
  · unfold Client.enter; cases e 0 (vmLaunchEvent cl.cmd) <;> rfl
  · exact isRunning_trace e cl.vmName cl.cmd s
  · unfold Client.exit _stop_process
    cases hk : e s.length (vmKillEvent cl.cmd) with
    | ok o => exact ⟨[], rfl⟩
    | error ex =>
      cases ex with
      | commandExecFailed m => exact ⟨[.warn m], rfl⟩
      | timeoutExpired m => exact ⟨[], rfl⟩
      | processLookupError m => exact ⟨[], rfl⟩
      | otherError m => exact ⟨[], rfl⟩
  · exact podEnter_trace_head e p
  · unfold PodClient.is_running
    cases e s.length (podProbeEvent p.cmd) <;> rfl
  · unfold PodClient.exit
    cases e s.length (podKillEvent p.cmd) <;> rfl

/-- C6 (counterexample): constructed with the bind interface `""` (given, but
empty), `PodClient`'s command omits the `--bind` suffix: Python's truthiness
test `if bind_interface` treats the empty string like `None`. -/
theorem c6_counterexample :
    PodClient.cmd ⟨"pod-a", "10.0.0.5", 5201, some ""⟩ =
      "iperf3 --client 10.0.0.5 --time 0 --port 5201 --connect-timeout 0" ∧
    PodClient.cmd ⟨"pod-a", "10.0.0.5", 5201, some ""⟩ ≠
      "iperf3 --client 10.0.0.5 --time 0 --port 5201 --connect-timeout 0" ++
        " --bind " := by
  constructor
  · rfl
  · decide

/-- C6 (amended): the server command is
`iperf3 --server --port <P> --one-off`, the client command (VM client and
pod client alike) is
`iperf3 --client <ip> --time 0 --port <P> --connect-timeout 0`, and
`PodClient` appends ` --bind <iface>` exactly when the given bind interface
is truthy, i.e. non-`None` AND non-empty. -/
theorem c6_command_shapes (vmName podName ip : String) (port : Nat) (iface : String) :
    Server.cmd ⟨vmName, port⟩ =
      "iperf3 --server --port " ++ toString port ++ " --one-off" ∧
    Client.cmd ⟨vmName, ip, port⟩ =
      "iperf3 --client " ++ ip ++ " --time 0 --port " ++ toString port ++
        " --connect-timeout 0" ∧
    PodClient.cmd ⟨podName, ip, port, none⟩ = Client.cmd ⟨vmName, ip, port⟩ ∧
    (iface ≠ "" →
      PodClient.cmd ⟨podName, ip, port, some iface⟩ =
        Client.cmd ⟨vmName, ip, port⟩ ++ " --bind " ++ iface) ∧
    PodClient.cmd ⟨podName, ip, port, some ""⟩ = Client.cmd ⟨vmName, ip, port⟩ := by
  refine ⟨?_, ?_, ?_, fun h => ?_, ?_⟩
  · simp only [Server.cmd, _IPERF_BIN]
    rw [show ("iperf3" : String) ++ " --server --port " =
      "iperf3 --server --port " from rfl]
  · simp only [Client.cmd, _IPERF_BIN]
    rw [show ("iperf3" : String) ++ " --client " = "iperf3 --client " from rfl]
  · simp [PodClient.cmd, Client.cmd, pyTruthyStr, String.append_empty]
  · have hemp : iface.isEmpty = false := by
      cases he : iface.isEmpty with
      | false => rfl
      | true => exact absurd ((String.isEmpty_iff iface).mp he) h
    simp [PodClient.cmd, Client.cmd, pyTruthyStr, hemp, String.append_assoc]
    rw [show (" --connect-timeout 0" : String) ++ (" --bind " ++ iface) =
      " --connect-timeout 0 --bind " ++ iface from by
        rw [← String.append_assoc,
          show (" --connect-timeout 0" : String) ++ " --bind " =
            " --connect-timeout 0 --bind " from rfl]]
  · simp [PodClient.cmd, Client.cmd, pyTruthyStr, String.append_empty,
      show ("" : String).isEmpty = true from rfl]

/-- Witness for C6 (amended) at a concrete non-empty bind interface. -/
theorem c6_command_shapes_witness :
    PodClient.cmd ⟨"pod-a", "10.0.0.5", 5201, some "eth1"⟩ =
      Client.cmd ⟨"vm-b", "10.0.0.5", 5201⟩ ++ " --bind " ++ "eth1" :=
  (c6_command_shapes "vm-b" "pod-a" "10.0.0.5" 5201 "eth1").2.2.2.1 (by decide)

/-- C7 (confirmed): when polling exhausts its budget, the console-attached
shape (60s/5s `TimeoutSampler` in `_is_process_running`) downgrades the
timeout to a `false` result with a warning logged and no exception, while
the container-attached shape (30s/2s retry around
`PodClient._ensure_is_running`) re-raises, so `PodClient.start()` surfaces
the failure to its caller. -/
theorem c7_poll_timeout_behavior (srv : Server) (p : PodClient) (e1 e2 : Exec) (s : List Event) :
    ((∀ n, truthySample (e1 n (vmProbeEvent srv.cmd)) = false) →
      ∃ m, Server.is_running e1 srv s =
        (false, s ++ List.replicate samplerAttempts (vmProbeEvent srv.cmd) ++
          [Event.warn m])) ∧
    ((∃ o, e2 0 (podLaunchEvent p.cmd) = .ok o) →
     (∀ n, ∃ out, e2 n (podProbeEvent p.cmd) = .ok out ∧ (pyStrip out).isEmpty = true) →
      PodClient.enter e2 p =
        (.error (.timeoutExpired (podNotStartedMsg p.podName)),
         podLaunchEvent p.cmd ::
           (List.replicate retryAttempts (podProbeEvent p.cmd) ++
            [Event.warn (podNotStartedMsg p.podName)]))) := by
  constructor
  · intro h
    obtain ⟨l, hl⟩ := samplerLoop_all_nontruthy e1 srv.cmd h samplerAttempts s none
    refine ⟨notRunningWarnMsg srv.vmName l, ?_⟩
    unfold Server.is_running _is_process_running
    rw [hl]
  · rintro ⟨o, ho⟩ h
    have he : PodClient._ensure_is_running e2 p [podLaunchEvent p.cmd] =
        (.error (.timeoutExpired (podNotStartedMsg p.podName)),
         [podLaunchEvent p.cmd] ++
           (List.replicate retryAttempts (podProbeEvent p.cmd) ++
            [Event.warn (podNotStartedMsg p.podName)])) :=
      ensureLoop_all_empty e2 p.podName p h retryAttempts [podLaunchEvent p.cmd]
    simp [PodClient.enter, ho, he]

/-- Witness for C7 at an executor whose probes always answer empty output. -/
theorem c7_poll_timeout_behavior_witness :
    (∃ m, Server.is_running execEmpty srv0 [] =
      (false, [] ++ List.replicate samplerAttempts (vmProbeEvent srv0.cmd) ++
        [Event.warn m])) ∧
    PodClient.enter execEmpty pc0 =
      (.error (.timeoutExpired (podNotStartedMsg pc0.podName)),
       podLaunchEvent pc0.cmd ::
         (List.replicate retryAttempts (podProbeEvent pc0.cmd) ++
          [Event.warn (podNotStartedMsg pc0.podName)])) :=
  ⟨(c7_poll_timeout_behavior srv0 pc0 execEmpty execEmpty []).1 (fun _ => rfl),
   (c7_poll_timeout_behavior srv0 pc0 execEmpty execEmpty []).2 ⟨"", rfl⟩
     (fun _ => ⟨"", rfl, rfl⟩)⟩

/-- C8 (confirmed): if the executor fails on the initial launch call inside
`start()`, that failure propagates unchanged to the caller and the trace
holds exactly the one launch call — the launch is not retried, on all three
handle kinds. -/
theorem c8_launch_failure_propagates (srv : Server) (cl : Client) (p : PodClient)
    (e : Exec) (ex : PyExc) :
    (e 0 (vmLaunchEvent srv.cmd) = .error ex →
      Server.enter e srv = (.error ex, [vmLaunchEvent srv.cmd])) ∧
    (e 0 (vmLaunchEvent cl.cmd) = .error ex →
      Client.enter e cl = (.error ex, [vmLaunchEvent cl.cmd])) ∧
    (e 0 (podLaunchEvent p.cmd) = .error ex →
      PodClient.enter e p = (.error ex, [podLaunchEvent p.cmd])) := by
  refine ⟨fun h => ?_, fun h => ?_, fun h => ?_⟩
  · simp [Server.enter, h]
  · simp [Client.enter, h]
  · simp [PodClient.enter, h]

/-- Witness for C8 at an executor that always fails. -/
theorem c8_launch_failure_propagates_witness :
    Server.enter execFail srv0 =
      (.error (.commandExecFailed "exec failed"), [vmLaunchEvent srv0.cmd]) ∧
    Client.enter execFail cl0 =
      (.error (.commandExecFailed "exec failed"), [vmLaunchEvent cl0.cmd]) ∧
    PodClient.enter execFail pc0 =
      (.error (.commandExecFailed "exec failed"), [podLaunchEvent pc0.cmd]) :=
  ⟨(c8_launch_failure_propagates srv0 cl0 pc0 execFail
      (.commandExecFailed "exec failed")).1 rfl,
   (c8_launch_failure_propagates srv0 cl0 pc0 execFail
      (.commandExecFailed "exec failed")).2.1 rfl,
   (c8_launch_failure_propagates srv0 cl0 pc0 execFail
      (.commandExecFailed "exec failed")).2.2 rfl⟩

/-- C9 (counterexample): the liveness-check call of `PodClient.is_running`
is issued WITHOUT a container argument — not in the iperf3 container as the
claim states. -/
theorem c9_counterexample :
    (PodClient.is_running execOk pc0 []).snd.map Event.containerArg = [none] := by
  rfl

/-- C9 (amended): only the launch supplies the container argument (the
iperf3 container); both the liveness check and the termination call are
issued without a container argument, i.e. they run in the pod's default
container. -/
theorem c9_container_args (p : PodClient) (e : Exec) (s : List Event) :
    (∃ tail, (PodClient.enter e p).snd =
      Event.podExec ["sh", "-c", "nohup " ++ p.cmd ++ " >/tmp/" ++ _IPERF_BIN ++
          ".log 2>&1 &"] (some _IPERF_BIN) false :: tail) ∧
    (PodClient.is_running e p s).snd =
      s ++ [Event.podExec ["pgrep", "-f", p.cmd] none true] ∧
    (PodClient.exit e p s).snd =
      s ++ [Event.podExec ["pkill", "-f", p.cmd] none false] := by
  refine ⟨podEnter_trace_head e p, ?_, ?_⟩
  · unfold PodClient.is_running
    cases e s.length (podProbeEvent p.cmd) <;> rfl
  · unfold PodClient.exit
    cases e s.length (podKillEvent p.cmd) <;> rfl

/-- C10 (confirmed): `is_tcp_connection` evaluates the server's liveness
first and short-circuits — when the server probe reports not running it
returns false with the trace ending at the server check, so the client's
liveness probe is never issued. -/
theorem c10_short_circuit (e : Exec) (srv : Server) (cl : ClientLike) (s : List Event)
    (h : (Server.is_running e srv s).fst = false) :
    is_tcp_connection e srv cl s = (.ok false, (Server.is_running e srv s).snd) := by
  unfold is_tcp_connection
  rcases hs : Server.is_running e srv s with ⟨b, s1⟩
  rw [hs] at h
  simp only at h
  subst h
  rfl

/-- Witness for C10: with an always-empty executor the server probe reports
not running, and the pairing check returns false on the server trace alone. -/
theorem c10_short_circuit_witness :
    is_tcp_connection execEmpty srv0 (ClientLike.podClient pc0) [] =
      (.ok false, (Server.is_running execEmpty srv0 []).snd) :=
  c10_short_circuit execEmpty srv0 (ClientLike.podClient pc0) [] (by rfl)
